import Mathlib

set_option maxHeartbeats 1000000

/-!
Shallow embedding of `src/GANDLF/data/ImagesFromDataFrame.py`.

Helpers that belong to this repository but are not under `src/`
(`resize_image`, `get_correct_padding_size`, `get_filename_extension_sanitized`,
`get_transforms_for_preprocessing`, the augmentation registry
`global_augs_dict`) are modelled from the spec, as marked on their doc
comments.  Image I/O (`torchio` image construction, `SimpleITK` readers and
writers) is modelled as total functions over an explicit filesystem map — the
spec treats it as a black-box collaborator — and the external
`perform_sanity_check_on_subject` collaborator is an abstract boolean
predicate, where `false` models "raises an exception".
-/

/-- Voxel image: spatial dimensions, flattened voxel values, physical spacing. -/
structure SImage where
  dims : List Nat
  voxels : List Int
  spacing : List Nat
deriving DecidableEq

/-- Filesystem model: association list from path to image content.
`os.path.isfile` is lookup success and `sitk.WriteImage` prepends a binding. -/
abbrev FS := List (String × SImage)

/-- The `os.path.isfile` check. -/
def FS.isfile (fs : FS) (p : String) : Bool :=
  (fs.lookup p).isSome

/-- Reading an image (or its header information) from a path; total, with a
default image for absent paths, since the source performs its own existence
checks and continues. -/
def FS.read (fs : FS) (p : String) : SImage :=
  (fs.lookup p).getD ⟨[], [], []⟩

/-- The `sitk.WriteImage` effect. -/
def FS.write (fs : FS) (p : String) (img : SImage) : FS :=
  (p, img) :: fs

/-- Interpolator choice for resampling (`sitk.sitkNearestNeighbor` versus the
smoothing default). -/
inductive Interpolator
  | linear
  | nearest
deriving DecidableEq

/-- Nearest-neighbour voxel resampling: every output voxel is a copy of some
input voxel. -/
def resizeVoxels (vs : List Int) (n : Nat) : List Int :=
  if vs.isEmpty then []
  else (List.range n).map (fun i => vs.getD (i * vs.length / n) 0)

/-- Linear (smoothing) voxel resampling: output voxels average neighbouring
input voxels, so new intensity values can appear. -/
def linearVoxels (vs : List Int) (n : Nat) : List Int :=
  if vs.isEmpty then []
  else
    (List.range n).map (fun i =>
      let j := i * vs.length / n
      (vs.getD j 0 + vs.getD (min (j + 1) (vs.length - 1)) 0) / 2)

/-- Modelled from the spec: `resize_image` from `GANDLF.utils` is not under
`src/`.  Per spec §4.2 it resamples an image to the requested target size,
with a smoothing (linear) interpolator for continuous intensity data and
nearest-neighbour for label maps; the resized image carries the refreshed
geometry (spacing scaled to the new grid). -/
def resize_image (img : SImage) (target : List Nat) (interp : Interpolator) : SImage :=
  let n := target.foldl (· * ·) 1
  { dims := target
    voxels :=
      match interp with
      | .nearest => resizeVoxels img.voxels n
      | .linear => linearVoxels img.voxels n
    spacing :=
      (img.spacing.zip (img.dims.zip target)).map
        (fun sp => sp.1 * sp.2.1 / max sp.2.2 1) }

/-- Modelled from the spec: `get_correct_padding_size` from `GANDLF.utils` is
not under `src/`.  Per spec §4.4 the pad size is computed from the patch size
and the spatial dimensionality (2D versus 3D); for 2D data the through-plane
axis is not padded. -/
def get_correct_padding_size (patch_size : List Nat) (dimension : Nat) : List Nat :=
  let half := patch_size.map (fun p => (p + 1) / 2)
  if dimension == 2 then half.set (half.length - 1) 0 else half

/-- Modelled from the spec: `torchio.transforms.Pad` is an external
collaborator.  Per spec §4.4, symmetric padding grows every axis by exactly
twice the pad width, with a configurable fill mode (edge replication or zero
fill). -/
def padImage (pad : List Nat) (mode : String) (img : SImage) : SImage :=
  let newDims := List.zipWith (fun d q => d + 2 * q) img.dims pad
  let fill : Int := if mode == "replicate" then img.voxels.getLastD 0 else 0
  let extra := newDims.foldl (· * ·) 1 - img.dims.foldl (· * ·) 1
  { dims := newDims
    voxels := img.voxels ++ List.replicate extra fill
    spacing := img.spacing }

/-- The per-row subject record assembled by the loop (the Python
`subject_dict` / `torchio.Subject`).  `label = none` models the literal
`"NA"` marker stored when no label header is configured. -/
structure Subject where
  subject_id : String
  channels : List (Nat × SImage)
  spacing : Option (List Nat)
  label : Option SImage
  path_to_metadata : String
  values : List String
deriving DecidableEq

/-- Application of the `Pad` transform to every image in the subject, label
included (lines 258–264 of the source apply `padder` to the whole subject). -/
def padSubject (pad : List Nat) (mode : String) (s : Subject) : Subject :=
  { s with
    channels := s.channels.map (fun ci => (ci.1, padImage pad mode ci.2))
    label := s.label.map (padImage pad mode) }

/-- The `headers` role mapping (column indices of the manifest). -/
structure Headers where
  channelHeaders : List Nat
  labelHeader : Option Nat
  predictionHeaders : List Nat
  subjectIDHeader : Nat
deriving DecidableEq

/-- The `patch_sampler` configuration mapping. -/
structure SamplerCfg where
  type : String
  enable_padding : Bool
  padding_mode : String
  biased_sampling : Bool
deriving DecidableEq

/-- The `model` configuration (only `dimension` is read here). -/
structure ModelCfg where
  dimension : Nat
deriving DecidableEq

/-- The `parameters` dictionary, restricted to the keys the source reads. -/
structure Params where
  patch_size : List Nat
  headers : Headers
  q_max_length : Nat
  q_samples_per_volume : Nat
  q_num_workers : Nat
  q_verbose : Bool
  data_augmentation : Option (List (String × String))
  data_preprocessing : Option (List (String × Option (List Nat)))
  in_memory : Bool
  patch_sampler : SamplerCfg
  memory_save_mode : Bool
  output_dir : String
  model : ModelCfg
  sampling_weights : Option (List (Nat × Nat))
deriving DecidableEq

/-- The manifest dataframe: rows of string cells, indexed positionally (the
source reindexes columns and rows to `range`). -/
abbrev DataFrame := List (List String)

/-- The access `dataframe[col][row]`. -/
def cell (df : DataFrame) (col row : Nat) : String :=
  (df.getD row []).getD col ""

/-- The accepted resize directive synonyms (line 98). -/
def resize_synonyms : List String :=
  ["resize", "resize_image", "resize_images"]

/-- Lines 95–102: scan the preprocessing keys in order; the first resize
synonym carrying a non-None value activates the resize stage with that
target (a synonym with value None does not break the scan). -/
def findResizeTarget : List (String × Option (List Nat)) → Option (List Nat)
  | [] => none
  | (k, v) :: rest =>
    if k ∈ resize_synonyms then
      match v with
      | some t => some t
      | none => findResizeTarget rest
    else findResizeTarget rest

/-- The `resize_images_flag` / `preprocessing["resize_image"]` pair: `some`
exactly when the flag is set. -/
def resizeTarget (pp : Option (List (String × Option (List Nat)))) : Option (List Nat) :=
  match pp with
  | none => none
  | some l => findResizeTarget l

/-- Splitting a character list at a separator character (structural
recursion, so that it evaluates in the kernel). -/
def splitChars (sep : Char) : List Char → List (List Char)
  | [] => [[]]
  | c :: cs =>
    let r := splitChars sep cs
    if c = sep then [] :: r
    else
      match r with
      | [] => [[c]]
      | g :: gs => (c :: g) :: gs

/-- Modelled from the spec: `get_filename_extension_sanitized` from
`GANDLF.utils` is not under `src/`.  It extracts the file extension (the
suffixes of the path's base name; `.nii` / `.gz` are normalised to
`.nii.gz`); the claims depend only on which path it is applied to. -/
def get_filename_extension_sanitized (filename : String) : String :=
  let base := (splitChars '/' filename.data).getLastD filename.data
  let parts := splitChars '.' base
  let ext :=
    if parts.length ≤ 1 then ""
    else String.mk ('.' :: List.intercalate ['.'] (parts.drop 1))
  if ext == ".gz" || ext == ".nii" then ".nii.gz" else ext

/-- The deterministic cache path built at lines 120–127:
`<output_dir>/<loader_type>_resized_images/<subject_id>_<channel>_resized<ext>`. -/
def resized_save_path (output_dir subject_id channel_str loader_type extension : String) : String :=
  output_dir ++ "/" ++ loader_type ++ "_resized_images" ++ "/" ++
    subject_id ++ "_" ++ channel_str ++ "_resized" ++ extension

/-- Lines 104–129: write the resized image at the deterministic cache path
unless a file already exists there (directory creation is not modelled
separately; it never fails with `exist_ok=True`). -/
def _save_resized_images (resized_image : SImage)
    (output_dir subject_id channel_str loader_type extension : String) (fs : FS) : FS :=
  let save_path := resized_save_path output_dir subject_id channel_str loader_type extension
  if fs.isfile save_path then fs else fs.write save_path resized_image

/-- State carried through the channel loop of one manifest row. -/
structure RowState where
  channels : List (Nat × SImage)
  spacing : Option (List Nat)
  skip_subject : Bool
  fs : FS
deriving DecidableEq

/-- Lines 145–183: one iteration of the channel loop — the `isfile` sanity
check, the image load, the first-channel spacing read, and the optional
per-channel resize (with the memory-saving cache write, or the in-memory
replacement that also refreshes the recorded spacing). -/
def processChannel (p : Params) (loader_type subject_id : String)
    (df : DataFrame) (patient channel : Nat) (st : RowState) : RowState :=
  let path := cell df channel patient
  let skip := st.skip_subject || !(st.fs.isfile path)
  let img := st.fs.read path
  let spacing0 :=
    match st.spacing with
    | some s => some s
    | none => some img.spacing
  match resizeTarget p.data_preprocessing with
  | none =>
    { channels := st.channels ++ [(channel, img)]
      spacing := spacing0
      skip_subject := skip
      fs := st.fs }
  | some target =>
    let img_resized := resize_image img target Interpolator.linear
    if p.memory_save_mode then
      { channels := st.channels ++ [(channel, img)]
        spacing := spacing0
        skip_subject := skip
        fs := _save_resized_images img_resized p.output_dir subject_id
                (toString channel) loader_type
                (get_filename_extension_sanitized path) st.fs }
    else
      { channels := st.channels ++ [(channel, img_resized)]
        spacing := some img_resized.spacing
        skip_subject := skip
        fs := st.fs }

/-- The whole channel loop of one row (lines 144–183). -/
def channelLoopState (p : Params) (loader_type : String) (df : DataFrame)
    (patient : Nat) (fs : FS) : RowState :=
  let subject_id := cell df p.headers.subjectIDHeader patient
  p.headers.channelHeaders.foldl
    (fun s c => processChannel p loader_type subject_id df patient c s)
    ⟨[], none, false, fs⟩

/-- Lines 139–232: assemble the `subject_dict` of one manifest row, perform
the cache writes, and compute the skip flag.  Note the label branch reads the
file extension from the leftover channel-loop variable (line 215), i.e. from
the last channel header's cell, and the no-label branch likewise sets
`path_to_metadata` from that leftover variable (line 223). -/
def buildSubjectDict (p : Params) (loader_type : String) (df : DataFrame)
    (patient : Nat) (fs : FS) : Subject × Bool × FS :=
  let subject_id := cell df p.headers.subjectIDHeader patient
  let st := channelLoopState p loader_type df patient fs
  let lastChannel := p.headers.channelHeaders.getLastD 0
  let values := p.headers.predictionHeaders.map (fun h => cell df h patient)
  match p.headers.labelHeader with
  | some lh =>
    let lpath := cell df lh patient
    let skip := st.skip_subject || !(st.fs.isfile lpath)
    let lab := st.fs.read lpath
    match resizeTarget p.data_preprocessing with
    | none =>
      (⟨subject_id, st.channels, st.spacing, some lab, lpath, values⟩, skip, st.fs)
    | some target =>
      let img_resized := resize_image lab target Interpolator.nearest
      if p.memory_save_mode then
        (⟨subject_id, st.channels, st.spacing, some lab, lpath, values⟩, skip,
         _save_resized_images img_resized p.output_dir subject_id "label" loader_type
           (get_filename_extension_sanitized (cell df lastChannel patient)) st.fs)
      else
        (⟨subject_id, st.channels, st.spacing, some img_resized, lpath, values⟩, skip, st.fs)
  | none =>
    (⟨subject_id, st.channels, st.spacing, none, cell df lastChannel patient, values⟩,
     st.skip_subject, st.fs)

/-- State carried through the assembly loop over all rows.
`subjects_with_error` is `Option`-valued to model the Python list that the
post-loop assertion compares against `None`; it is initialised to `some []`
(the empty list) and only ever appended to.  `loads` records the subjects
loaded into memory by `subject.load()` (line 268). -/
structure AsmState where
  subjects_list : List Subject
  subjects_with_error : Option (List String)
  fs : FS
  loads : List String
deriving DecidableEq

/-- The conditional padding stage (lines 258–264). -/
def paddingStage (p : Params) (s : Subject) : Subject :=
  if p.patch_sampler.enable_padding then
    padSubject (get_correct_padding_size p.patch_size p.model.dimension)
      p.patch_sampler.padding_mode s
  else s

/-- Lines 234–271: the per-row tail of the assembly loop — skip handling, the
sanity-check try/except (which records the subject id on failure but falls
through to the code that pads and appends the subject), optional padding,
optional in-memory load, and the append to the subject list. -/
def processRow (sanity : Subject → Bool) (p : Params) (loader_type : String)
    (df : DataFrame) (patient : Nat) (st : AsmState) : AsmState :=
  let b := buildSubjectDict p loader_type df patient st.fs
  let subject := b.1
  let skip := b.2.1
  let fs2 := b.2.2
  if skip then { st with fs := fs2 }
  else
    let errs :=
      if sanity subject then st.subjects_with_error
      else st.subjects_with_error.map (fun l => l ++ [subject.subject_id])
    let subject2 := paddingStage p subject
    let loads2 := if p.in_memory then st.loads ++ [subject2.subject_id] else st.loads
    { subjects_list := st.subjects_list ++ [subject2]
      subjects_with_error := errs
      fs := fs2
      loads := loads2 }

/-- Lines 131–275: the assembly loop over all manifest rows. -/
def assemble (sanity : Subject → Bool) (p : Params) (loader_type : String)
    (df : DataFrame) (fs0 : FS) : AsmState :=
  (List.range df.length).foldl
    (fun st patient => processRow sanity p loader_type df patient st)
    ⟨[], some [], fs0, []⟩

/-- A transform in the composed chain. -/
inductive Transform
  | preproc (name : String)
  | zerocrop
  | aug (name : String) (param : String)
deriving DecidableEq

/-- Whether a transform is an augmentation. -/
def Transform.isAug : Transform → Bool
  | .aug _ _ => true
  | _ => false

/-- The Python `aug.lower()`: ASCII lower-casing, character by character
(written over the character list so that it evaluates in the kernel). -/
def lowercase (s : String) : String :=
  String.mk (s.data.map Char.toLower)

/-- Modelled from the spec: the augmentation registry `global_augs_dict` from
`GANDLF.data.augmentation` is not under `src/`; per spec §4.5 it is a static
lookup table keyed by lower-cased augmentation name.  Representative keys. -/
def global_augs_dict_keys : List String :=
  ["affine", "elastic", "flip", "rotate", "blur", "noise", "gamma", "swap",
   "motion", "bias"]

/-- Lines 277–286: collect the augmentation transforms — training only, each
name lower-cased, looked up in the registry (unknown names are silently
skipped) and instantiated with its own parameter block. -/
def build_transformations_list (train : Bool)
    (augmentations : Option (List (String × String))) : List Transform :=
  if train then
    match augmentations with
    | none => []
    | some augs =>
      augs.foldl
        (fun acc ap =>
          if lowercase ap.1 ∈ global_augs_dict_keys then
            acc ++ [Transform.aug (lowercase ap.1) ap.2]
          else acc)
        []
  else []

/-- Modelled from the spec: `get_transforms_for_preprocessing` from
`GANDLF.data.preprocessing` is not under `src/`.  Per spec §4.5 the chain is
the preprocessing transforms first (with the independently requested
zero-crop adjustment), followed by the supplied augmentation transforms. -/
def get_transforms_for_preprocessing (p : Params)
    (current_transformations : List Transform) (train : Bool)
    (apply_zero_crop : Bool) : List Transform :=
  ((p.data_preprocessing.getD []).map (fun kv => Transform.preproc kv.1) ++
      (if apply_zero_crop then [Transform.zerocrop] else [])) ++
    current_transformations

/-- The three torchio sampler families referenced by `global_sampler_dict`. -/
inductive SamplerFamily
  | uniformF
  | labelF
  | weightedF
deriving DecidableEq

/-- Lines 24–34: `global_sampler_dict`, the sampler-name lookup table. -/
def global_sampler_dict : List (String × SamplerFamily) :=
  [("uniform", .uniformF), ("uniformsampler", .uniformF), ("uniformsample", .uniformF),
   ("label", .labelF), ("labelsampler", .labelF), ("labelsample", .labelF),
   ("weighted", .weightedF), ("weightedsampler", .weightedF), ("weightedsample", .weightedF)]

/-- A constructed sampler object. -/
inductive SamplerObj
  | uniformS (patch_size : List Nat)
  | labelS (patch_size : List Nat)
  | labelBiased (patch_size : List Nat) (label_probabilities : List (Nat × Nat))
  | weightedS (patch_size : List Nat) (probability_map : Option String)
deriving DecidableEq

/-- The base constructor call `global_sampler_dict[type](patch_size)`
(line 297). -/
def applySamplerFamily (f : SamplerFamily) (patch_size : List Nat) : SamplerObj :=
  match f with
  | .uniformF => .uniformS patch_size
  | .labelF => .labelS patch_size
  | .weightedF => .weightedS patch_size none

/-- Lines 296–314: initialise the sampler object.  An unknown sampler type is
a `KeyError` at the first dictionary lookup, modelled as `none`; recognised
types always yield a sampler (the weighted and biased-label branches
re-construct with their extra arguments). -/
def initSampler (p : Params) (train : Bool) : Option SamplerObj :=
  match global_sampler_dict.lookup p.patch_sampler.type with
  | none => none
  | some fam =>
    let base := applySamplerFamily fam p.patch_size
    if p.patch_sampler.type ∈ (["weighted", "weightedsampler", "weightedsample"] : List String) then
      some (SamplerObj.weightedS p.patch_size (some "label"))
    else if p.patch_sampler.type ∈ (["label", "labelsampler", "labelsample"] : List String) then
      if train && p.patch_sampler.biased_sampling then
        some (SamplerObj.labelBiased p.patch_size (p.sampling_weights.getD []))
      else some base
    else some base

/-- The value produced by `ImagesFromDataFrame`: the returned dataset or
queue, or the exception that escapes (the assert at lines 273–275, or the
`KeyError` from an unknown sampler type at line 297).  Mirroring the source,
the returned objects are built only from the subject list, the transform
chain and the queue configuration; side effects that happened earlier (cache
writes, in-memory loads, the error log) live in the accompanying `AsmState`. -/
inductive LoaderResult
  | assertionFailure
  | samplerKeyError
  | dataset (subjects : List Subject) (transform : List Transform)
  | queue (subjects : List Subject) (transform : List Transform)
      (max_length samples_per_volume num_workers : Nat)
      (shuffle_subjects shuffle_patches verbose : Bool)
      (sampler_obj : SamplerObj)
deriving DecidableEq

/-- Lines 38–326: the whole of `ImagesFromDataFrame`, as final loop state plus
returned value.  `sanity` stands for `perform_sanity_check_on_subject` and
`fs0` for the on-disk state when the call starts. -/
def ImagesFromDataFrame (sanity : Subject → Bool) (df : DataFrame) (p : Params)
    (train apply_zero_crop : Bool) (loader_type : Option String)
    (fs0 : FS) : AsmState × LoaderResult :=
  let lt := loader_type.getD ""
  let st := assemble sanity p lt df fs0
  if !st.subjects_with_error.isSome then (st, .assertionFailure)
  else
    let transformations_list := build_transformations_list train p.data_augmentation
    let transform :=
      get_transforms_for_preprocessing p transformations_list train apply_zero_crop
    if !train then (st, .dataset st.subjects_list transform)
    else
      match initSampler p train with
      | none => (st, .samplerKeyError)
      | some sampler_obj =>
        (st, .queue st.subjects_list transform p.q_max_length p.q_samples_per_volume
          p.q_num_workers true true p.q_verbose sampler_obj)

/-! ## Concrete fixtures for the closed evaluations -/

/-- A concrete one-axis image with two voxels. -/
def imgA : SImage := ⟨[2], [1, 2], [1]⟩

/-- A concrete label image with voxel values 0 and 3. -/
def imgLab : SImage := ⟨[2], [0, 3], [1]⟩

/-- A plain uniform sampler configuration without padding. -/
def baseSampler : SamplerCfg := ⟨"uniform", false, "", false⟩

/-- Headers for a manifest with one channel column (0) and the id in column 1. -/
def baseHeaders : Headers := ⟨[0], none, [], 1⟩

/-- A baseline parameters dictionary used by the concrete evaluations. -/
def baseParams : Params :=
  { patch_size := [4]
    headers := baseHeaders
    q_max_length := 10
    q_samples_per_volume := 2
    q_num_workers := 1
    q_verbose := false
    data_augmentation := none
    data_preprocessing := none
    in_memory := false
    patch_sampler := baseSampler
    memory_save_mode := false
    output_dir := "out"
    model := ⟨3⟩
    sampling_weights := none }

/-- A parameters variant with a label header (column 2) and resize active. -/
def resizeParams : Params :=
  { baseParams with
    headers := ⟨[0], some 2, [], 1⟩
    data_preprocessing := some [("resize", some [3])] }

/-- A parameters variant with a label header (column 2), resize active and
memory-saving mode on. -/
def memorySaveParams : Params :=
  { baseParams with
    headers := ⟨[0], some 2, [], 1⟩
    memory_save_mode := true
    data_preprocessing := some [("resize", some [2])] }

/-! ## Helper lemmas -/

/-- Nearest-neighbour resampling only copies existing voxel values. -/
theorem resizeVoxels_mem (vs : List Int) (n : Nat) :
    ∀ v ∈ resizeVoxels vs n, v ∈ vs := by
  intro v hv
  unfold resizeVoxels at hv
  by_cases h : vs.isEmpty
  · simp [h] at hv
  · simp only [h, Bool.false_eq_true, if_false, List.mem_map, List.mem_range] at hv
    obtain ⟨i, hi, rfl⟩ := hv
    have hlen : 0 < vs.length := by
      cases vs with
      | nil => simp at h
      | cons a t => simp
    have hidx : i * vs.length / n < vs.length :=
      Nat.div_lt_of_lt_mul ((Nat.mul_lt_mul_right hlen).mpr hi)
    rw [List.getD_eq_getElem _ _ hidx]
    exact List.getElem_mem hidx

/-- A row step preserves the fact that the error accumulator is a list
(never the Python `None`). -/
theorem processRow_errors_isSome (sanity : Subject → Bool) (p : Params)
    (lt : String) (df : DataFrame) (patient : Nat) (st : AsmState)
    (h : st.subjects_with_error.isSome = true) :
    (processRow sanity p lt df patient st).subjects_with_error.isSome = true := by
  unfold processRow
  by_cases hskip : (buildSubjectDict p lt df patient st.fs).2.1 = true
  · simp [hskip, h]
  · simp only [Bool.not_eq_true] at hskip
    by_cases hs : sanity (buildSubjectDict p lt df patient st.fs).1 = true
    · simp [hskip, hs, h]
    · simp only [Bool.not_eq_true] at hs
      simp [hskip, hs, Option.isSome_map, h]

/-- Folding row steps preserves the list-ness of the error accumulator. -/
theorem foldl_processRow_errors_isSome (sanity : Subject → Bool) (p : Params)
    (lt : String) (df : DataFrame) (l : List Nat) :
    ∀ st : AsmState, st.subjects_with_error.isSome = true →
      (l.foldl (fun s patient => processRow sanity p lt df patient s)
        st).subjects_with_error.isSome = true := by
  induction l with
  | nil => intro st h; simpa using h
  | cons a t ih =>
    intro st h
    exact ih _ (processRow_errors_isSome sanity p lt df a st h)

/-- After the whole assembly loop the error accumulator is still a list, so
the `is not None` assertion condition holds. -/
theorem assemble_errors_isSome (sanity : Subject → Bool) (p : Params)
    (lt : String) (df : DataFrame) (fs0 : FS) :
    (assemble sanity p lt df fs0).subjects_with_error.isSome = true := by
  unfold assemble
  exact foldl_processRow_errors_isSome sanity p lt df _ _ rfl

/-- The subject list, the filesystem and the in-memory loads after one row
step do not depend on the sanity-check outcome. -/
theorem processRow_sanity_agnostic (s1 s2 : Subject → Bool) (p : Params)
    (lt : String) (df : DataFrame) (patient : Nat) (st1 st2 : AsmState)
    (hl : st1.subjects_list = st2.subjects_list) (hf : st1.fs = st2.fs)
    (hd : st1.loads = st2.loads) :
    (processRow s1 p lt df patient st1).subjects_list
        = (processRow s2 p lt df patient st2).subjects_list
    ∧ (processRow s1 p lt df patient st1).fs = (processRow s2 p lt df patient st2).fs
    ∧ (processRow s1 p lt df patient st1).loads
        = (processRow s2 p lt df patient st2).loads := by
  unfold processRow
  rw [hf]
  by_cases hskip : (buildSubjectDict p lt df patient st2.fs).2.1 = true
  · simp [hskip, hl, hf, hd]
  · simp only [Bool.not_eq_true] at hskip
    by_cases h1 : s1 (buildSubjectDict p lt df patient st2.fs).1 = true
    · by_cases h2 : s2 (buildSubjectDict p lt df patient st2.fs).1 = true
      · simp [hskip, h1, h2, hl, hf, hd]
      · simp only [Bool.not_eq_true] at h2
        simp [hskip, h1, h2, hl, hf, hd]
    · simp only [Bool.not_eq_true] at h1
      by_cases h2 : s2 (buildSubjectDict p lt df patient st2.fs).1 = true
      · simp [hskip, h1, h2, hl, hf, hd]
      · simp only [Bool.not_eq_true] at h2
        simp [hskip, h1, h2, hl, hf, hd]

/-- Folded version of `processRow_sanity_agnostic`. -/
theorem foldl_processRow_sanity_agnostic (s1 s2 : Subject → Bool) (p : Params)
    (lt : String) (df : DataFrame) (l : List Nat) :
    ∀ st1 st2 : AsmState, st1.subjects_list = st2.subjects_list →
      st1.fs = st2.fs → st1.loads = st2.loads →
      (l.foldl (fun s patient => processRow s1 p lt df patient s) st1).subjects_list
          = (l.foldl (fun s patient => processRow s2 p lt df patient s) st2).subjects_list
      ∧ (l.foldl (fun s patient => processRow s1 p lt df patient s) st1).fs
          = (l.foldl (fun s patient => processRow s2 p lt df patient s) st2).fs
      ∧ (l.foldl (fun s patient => processRow s1 p lt df patient s) st1).loads
          = (l.foldl (fun s patient => processRow s2 p lt df patient s) st2).loads := by
  induction l with
  | nil => intro st1 st2 hl hf hd; exact ⟨hl, hf, hd⟩
  | cons a t ih =>
    intro st1 st2 hl hf hd
    obtain ⟨hl2, hf2, hd2⟩ := processRow_sanity_agnostic s1 s2 p lt df a st1 st2 hl hf hd
    exact ih _ _ hl2 hf2 hd2

/-- The assembled subject list, filesystem and loads do not depend on the
sanity-check collaborator. -/
theorem assemble_sanity_agnostic (s1 s2 : Subject → Bool) (p : Params)
    (lt : String) (df : DataFrame) (fs0 : FS) :
    (assemble s1 p lt df fs0).subjects_list = (assemble s2 p lt df fs0).subjects_list
    ∧ (assemble s1 p lt df fs0).fs = (assemble s2 p lt df fs0).fs
    ∧ (assemble s1 p lt df fs0).loads = (assemble s2 p lt df fs0).loads := by
  unfold assemble
  exact foldl_processRow_sanity_agnostic s1 s2 p lt df _ _ _ rfl rfl rfl

/-- A recognised sampler type always yields a sampler object. -/
theorem initSampler_isSome (p : Params) (train : Bool)
    (h : (global_sampler_dict.lookup p.patch_sampler.type).isSome = true) :
    (initSampler p train).isSome = true := by
  unfold initSampler
  obtain ⟨fam, hfam⟩ := Option.isSome_iff_exists.mp h
  rw [hfam]
  by_cases hw : p.patch_sampler.type ∈ (["weighted", "weightedsampler", "weightedsample"] : List String)
  · simp [hw]
  · by_cases hl : p.patch_sampler.type ∈ (["label", "labelsampler", "labelsample"] : List String)
    · by_cases hb : (train && p.patch_sampler.biased_sampling) = true
      · simp [hw, hl, hb]
      · simp [hw, hl, hb]
    · simp [hw, hl]

/-! ## Claim theorems -/

/-- C1: the claim states that a subject whose sanity check raises is recorded
in the Error Log AND excluded from the final Subject List, with no id in
both.  The code only records the id: on a one-row manifest whose channel file
exists and whose sanity check fails, subject "sub1" appears in the error log
and is nonetheless appended to the subject list handed to the dataset layer
(the printed message and the assertion text both say such a subject "could
not be loaded", yet it is loaded). -/
theorem c1_errored_subject_still_in_subject_list :
    (assemble (fun _ => false) baseParams "" [["img.nii", "sub1"]]
        [("img.nii", imgA)]).subjects_with_error = some ["sub1"]
    ∧ (assemble (fun _ => false) baseParams "" [["img.nii", "sub1"]]
        [("img.nii", imgA)]).subjects_list.map Subject.subject_id = ["sub1"]
    ∧ (ImagesFromDataFrame (fun _ => false) [["img.nii", "sub1"]] baseParams
        false false none [("img.nii", imgA)]).2
      = LoaderResult.dataset
          (assemble (fun _ => false) baseParams "" [["img.nii", "sub1"]]
            [("img.nii", imgA)]).subjects_list [] :=
  ⟨by decide, by decide, by decide⟩

/-- C9: the accumulated error list is always an actual list (never None), so
the post-assembly `is not None` assertion holds for every input, assembly
never aborts because subjects were recorded as errored, and the returned
value is independent of the sanity-check outcomes — the errored-subject
identifiers are never part of the function's return value.  (At least one
channel header is assumed, as the source reuses the channel loop variable
after the loop.) -/
theorem c9_assertion_vacuous_and_error_log_not_returned
    (s1 s2 : Subject → Bool) (df : DataFrame) (p : Params)
    (train zc : Bool) (lt : Option String) (fs0 : FS)
    (hch : p.headers.channelHeaders ≠ []) :
    (assemble s1 p (lt.getD "") df fs0).subjects_with_error.isSome = true
    ∧ (ImagesFromDataFrame s1 df p train zc lt fs0).2 ≠ LoaderResult.assertionFailure
    ∧ (ImagesFromDataFrame s1 df p train zc lt fs0).2
        = (ImagesFromDataFrame s2 df p train zc lt fs0).2 := by
  have h1 := assemble_errors_isSome s1 p (lt.getD "") df fs0
  have h2 := assemble_errors_isSome s2 p (lt.getD "") df fs0
  obtain ⟨hl, hf, hd⟩ := assemble_sanity_agnostic s1 s2 p (lt.getD "") df fs0
  refine ⟨h1, ?_, ?_⟩
  · unfold ImagesFromDataFrame
    cases train with
    | false => simp [h1]
    | true =>
      cases hIS : initSampler p true with
      | none => simp [h1, hIS]
      | some so => simp [h1, hIS]
  · unfold ImagesFromDataFrame
    cases train with
    | false => simp [h1, h2, hl]
    | true =>
      cases hIS : initSampler p true with
      | none => simp [h1, h2, hIS]
      | some so => simp [h1, h2, hIS, hl]

/-- C9 witness. -/
theorem c9_assertion_vacuous_witness :
    baseParams.headers.channelHeaders ≠ []
    ∧ ((assemble (fun _ => false) baseParams "" [["img.nii", "sub1"]]
          [("img.nii", imgA)]).subjects_with_error.isSome = true
      ∧ (ImagesFromDataFrame (fun _ => false) [["img.nii", "sub1"]] baseParams
          false false none [("img.nii", imgA)]).2 ≠ LoaderResult.assertionFailure
      ∧ (ImagesFromDataFrame (fun _ => false) [["img.nii", "sub1"]] baseParams
          false false none [("img.nii", imgA)]).2
          = (ImagesFromDataFrame (fun _ => true) [["img.nii", "sub1"]] baseParams
              false false none [("img.nii", imgA)]).2) :=
  ⟨by decide,
   c9_assertion_vacuous_and_error_log_not_returned (fun _ => false) (fun _ => true)
     [["img.nii", "sub1"]] baseParams false false none [("img.nii", imgA)] (by decide)⟩

/-- C3: the shape of the return value is decided solely by the `train` flag —
for `train = false` a dataset over every assembled subject with the composed
transform chain and no patch sampling; for `train = true` (and a recognised
sampler type) a patch queue configured with `q_max_length`,
`q_samples_per_volume`, `q_num_workers` and shuffling of both subjects and
patches. -/
theorem c3_return_determined_by_train_flag
    (sanity : Subject → Bool) (df : DataFrame) (p : Params) (zc : Bool)
    (lt : Option String) (fs0 : FS)
    (hs : (global_sampler_dict.lookup p.patch_sampler.type).isSome = true) :
    (ImagesFromDataFrame sanity df p false zc lt fs0).2
      = LoaderResult.dataset (assemble sanity p (lt.getD "") df fs0).subjects_list
          (get_transforms_for_preprocessing p
            (build_transformations_list false p.data_augmentation) false zc)
    ∧ ∃ so, (ImagesFromDataFrame sanity df p true zc lt fs0).2
      = LoaderResult.queue (assemble sanity p (lt.getD "") df fs0).subjects_list
          (get_transforms_for_preprocessing p
            (build_transformations_list true p.data_augmentation) true zc)
          p.q_max_length p.q_samples_per_volume p.q_num_workers true true
          p.q_verbose so := by
  have h1 := assemble_errors_isSome sanity p (lt.getD "") df fs0
  have h2 := initSampler_isSome p true hs
  obtain ⟨so, hso⟩ := Option.isSome_iff_exists.mp h2
  constructor
  · unfold ImagesFromDataFrame
    simp [h1]
  · refine ⟨so, ?_⟩
    unfold ImagesFromDataFrame
    simp [h1, hso]

/-- C3 witness. -/
theorem c3_return_determined_by_train_flag_witness :
    (global_sampler_dict.lookup baseParams.patch_sampler.type).isSome = true
    ∧ ((ImagesFromDataFrame (fun _ => true) [["img.nii", "sub1"]] baseParams
          false false none [("img.nii", imgA)]).2
        = LoaderResult.dataset
            (assemble (fun _ => true) baseParams "" [["img.nii", "sub1"]]
              [("img.nii", imgA)]).subjects_list
            (get_transforms_for_preprocessing baseParams
              (build_transformations_list false baseParams.data_augmentation) false false)
      ∧ ∃ so, (ImagesFromDataFrame (fun _ => true) [["img.nii", "sub1"]] baseParams
          true false none [("img.nii", imgA)]).2
        = LoaderResult.queue
            (assemble (fun _ => true) baseParams "" [["img.nii", "sub1"]]
              [("img.nii", imgA)]).subjects_list
            (get_transforms_for_preprocessing baseParams
              (build_transformations_list true baseParams.data_augmentation) true false)
            baseParams.q_max_length baseParams.q_samples_per_volume
            baseParams.q_num_workers true true baseParams.q_verbose so) :=
  ⟨by decide,
   c3_return_determined_by_train_flag (fun _ => true) [["img.nii", "sub1"]] baseParams
     false none [("img.nii", imgA)] (by decide)⟩

/-- C4 counterexample: the claim says an unrecognised sampler type raises
before any subject data is loaded.  On a one-row manifest with
`in_memory = true` and sampler type `"foo"`, the run ends in the sampler
KeyError, but the subject "sub1" had already been loaded into memory by the
assembly loop — the error is raised only after data loading. -/
theorem c4_unknown_sampler_error_after_data_loading :
    (ImagesFromDataFrame (fun _ => true) [["img.nii", "sub1"]]
        { baseParams with patch_sampler := ⟨"foo", false, "", false⟩, in_memory := true }
        true false none [("img.nii", imgA)]).2 = LoaderResult.samplerKeyError
    ∧ (ImagesFromDataFrame (fun _ => true) [["img.nii", "sub1"]]
        { baseParams with patch_sampler := ⟨"foo", false, "", false⟩, in_memory := true }
        true false none [("img.nii", imgA)]).1.loads = ["sub1"] :=
  ⟨by decide, by decide⟩

/-- C4 amended: for `train = true`, an unrecognised sampler type makes the
run end in the KeyError raised when the sampler is constructed — after the
assembly loop (which may already have loaded subject data) and before any
queue exists or any patch is sampled — while every recognised sampler type
constructs without error and yields the training queue. -/
theorem c4_amended_sampler_error_at_construction
    (sanity : Subject → Bool) (df : DataFrame) (p : Params) (zc : Bool)
    (lt : Option String) (fs0 : FS) :
    (global_sampler_dict.lookup p.patch_sampler.type = none →
      (ImagesFromDataFrame sanity df p true zc lt fs0).2 = LoaderResult.samplerKeyError)
    ∧ ((global_sampler_dict.lookup p.patch_sampler.type).isSome = true →
      ∃ so, (ImagesFromDataFrame sanity df p true zc lt fs0).2
        = LoaderResult.queue (assemble sanity p (lt.getD "") df fs0).subjects_list
            (get_transforms_for_preprocessing p
              (build_transformations_list true p.data_augmentation) true zc)
            p.q_max_length p.q_samples_per_volume p.q_num_workers true true
            p.q_verbose so) := by
  have h1 := assemble_errors_isSome sanity p (lt.getD "") df fs0
  constructor
  · intro hk
    have hIS : initSampler p true = none := by
      unfold initSampler
      rw [hk]
    unfold ImagesFromDataFrame
    simp [h1, hIS]
  · intro hs
    obtain ⟨so, hso⟩ := Option.isSome_iff_exists.mp (initSampler_isSome p true hs)
    refine ⟨so, ?_⟩
    unfold ImagesFromDataFrame
    simp [h1, hso]

/-- C4 witness. -/
theorem c4_amended_sampler_error_witness :
    global_sampler_dict.lookup "foo" = none
    ∧ (ImagesFromDataFrame (fun _ => true) [["img.nii", "sub1"]]
        { baseParams with patch_sampler := ⟨"foo", false, "", false⟩ }
        true false none [("img.nii", imgA)]).2 = LoaderResult.samplerKeyError :=
  ⟨by decide,
   (c4_amended_sampler_error_at_construction (fun _ => true) [["img.nii", "sub1"]]
     { baseParams with patch_sampler := ⟨"foo", false, "", false⟩ } false none
     [("img.nii", imgA)]).1 (by decide)⟩

/-- C6: saving a resized image in memory-saving mode is idempotent — if the
deterministic cache path is free, the first invocation writes the image
there, and any later invocation with the same path arguments (whatever image
it carries) leaves the filesystem, and in particular the existing file,
untouched. -/
theorem c6_save_resized_images_idempotent (img img2 : SImage)
    (odir sid ch lt ext : String) (fs : FS)
    (habs : fs.isfile (resized_save_path odir sid ch lt ext) = false) :
    (_save_resized_images img odir sid ch lt ext fs).lookup
        (resized_save_path odir sid ch lt ext) = some img
    ∧ _save_resized_images img2 odir sid ch lt ext
        (_save_resized_images img odir sid ch lt ext fs)
      = _save_resized_images img odir sid ch lt ext fs := by
  constructor
  · unfold _save_resized_images
    simp only [habs, Bool.false_eq_true, if_false]
    unfold FS.write
    simp [List.lookup]
  · unfold _save_resized_images
    simp only [habs, Bool.false_eq_true, if_false]
    have hfile : FS.isfile (FS.write fs (resized_save_path odir sid ch lt ext) img)
        (resized_save_path odir sid ch lt ext) = true := by
      unfold FS.isfile FS.write
      simp [List.lookup]
    simp [hfile]

/-- C6 witness. -/
theorem c6_save_resized_images_idempotent_witness :
    (FS.isfile [] (resized_save_path "out" "sub1" "0" "train" ".nii.gz") = false)
    ∧ ((_save_resized_images imgA "out" "sub1" "0" "train" ".nii.gz" []).lookup
          (resized_save_path "out" "sub1" "0" "train" ".nii.gz") = some imgA
      ∧ _save_resized_images imgLab "out" "sub1" "0" "train" ".nii.gz"
          (_save_resized_images imgA "out" "sub1" "0" "train" ".nii.gz" [])
        = _save_resized_images imgA "out" "sub1" "0" "train" ".nii.gz" []) :=
  ⟨by decide,
   c6_save_resized_images_idempotent imgA imgLab "out" "sub1" "0" "train" ".nii.gz" []
     (by decide)⟩

/-! ## More helper lemmas (channel loop, row projections, strings, transforms) -/

/-- When memory-saving mode is off, a channel iteration leaves the filesystem
unchanged. -/
theorem processChannel_fs_no_save (p : Params) (lt sid : String) (df : DataFrame)
    (patient c : Nat) (st : RowState) (hms : p.memory_save_mode = false) :
    (processChannel p lt sid df patient c st).fs = st.fs := by
  unfold processChannel
  cases hr : resizeTarget p.data_preprocessing with
  | none => simp [hr]
  | some t => simp [hr, hms]

/-- A channel iteration never clears the skip flag. -/
theorem processChannel_skip_mono (p : Params) (lt sid : String) (df : DataFrame)
    (patient c : Nat) (st : RowState) (h : st.skip_subject = true) :
    (processChannel p lt sid df patient c st).skip_subject = true := by
  unfold processChannel
  cases hr : resizeTarget p.data_preprocessing with
  | none => simp [hr, h]
  | some t =>
    by_cases hms : p.memory_save_mode = true
    · simp [hr, hms, h]
    · simp only [Bool.not_eq_true] at hms
      simp [hr, hms, h]

/-- A channel iteration whose file is missing sets the skip flag. -/
theorem processChannel_skip_missing (p : Params) (lt sid : String) (df : DataFrame)
    (patient c : Nat) (st : RowState)
    (h : st.fs.isfile (cell df c patient) = false) :
    (processChannel p lt sid df patient c st).skip_subject = true := by
  unfold processChannel
  cases hr : resizeTarget p.data_preprocessing with
  | none => simp [hr, h]
  | some t =>
    by_cases hms : p.memory_save_mode = true
    · simp [hr, hms, h]
    · simp only [Bool.not_eq_true] at hms
      simp [hr, hms, h]

/-- Folded channel loop: the filesystem is unchanged when memory-saving mode
is off. -/
theorem foldl_processChannel_fs_no_save (p : Params) (lt sid : String)
    (df : DataFrame) (patient : Nat) (l : List Nat)
    (hms : p.memory_save_mode = false) :
    ∀ st : RowState,
      (l.foldl (fun s c => processChannel p lt sid df patient c s) st).fs = st.fs := by
  induction l with
  | nil => intro st; rfl
  | cons a t ih =>
    intro st
    rw [List.foldl_cons, ih, processChannel_fs_no_save p lt sid df patient a st hms]

/-- Folded channel loop: the skip flag is never cleared. -/
theorem foldl_processChannel_skip_mono (p : Params) (lt sid : String)
    (df : DataFrame) (patient : Nat) (l : List Nat) :
    ∀ st : RowState, st.skip_subject = true →
      (l.foldl (fun s c => processChannel p lt sid df patient c s) st).skip_subject = true := by
  induction l with
  | nil => intro st h; exact h
  | cons a t ih =>
    intro st h
    rw [List.foldl_cons]
    exact ih _ (processChannel_skip_mono p lt sid df patient a st h)

/-- Folded channel loop (memory-saving mode off): a channel whose file is
missing marks the whole row skipped. -/
theorem foldl_processChannel_skip_missing (p : Params) (lt sid : String)
    (df : DataFrame) (patient : Nat) (l : List Nat)
    (hms : p.memory_save_mode = false) :
    ∀ st : RowState, (∃ c ∈ l, st.fs.isfile (cell df c patient) = false) →
      (l.foldl (fun s c => processChannel p lt sid df patient c s) st).skip_subject = true := by
  induction l with
  | nil =>
    rintro st ⟨c, hc, _⟩
    simp at hc
  | cons a t ih =>
    rintro st ⟨c, hc, hmiss⟩
    rw [List.foldl_cons]
    rcases List.mem_cons.mp hc with hca | hct
    · subst hca
      exact foldl_processChannel_skip_mono p lt sid df patient t _
        (processChannel_skip_missing p lt sid df patient c st hmiss)
    · apply ih
      refine ⟨c, hct, ?_⟩
      rw [processChannel_fs_no_save p lt sid df patient a st hms]
      exact hmiss

/-- Folded channel loop (resize on, memory-saving mode off): every channel
entry is the linearly resized image read from the (unchanged) filesystem. -/
theorem foldl_processChannel_channels_resized (p : Params) (lt sid : String)
    (df : DataFrame) (patient : Nat) (l : List Nat) (target : List Nat)
    (hrt : resizeTarget p.data_preprocessing = some target)
    (hms : p.memory_save_mode = false) :
    ∀ st : RowState,
      (l.foldl (fun s c => processChannel p lt sid df patient c s) st).channels
        = st.channels ++ l.map (fun c =>
            (c, resize_image (st.fs.read (cell df c patient)) target Interpolator.linear)) := by
  induction l with
  | nil => intro st; simp
  | cons a t ih =>
    intro st
    rw [List.foldl_cons, ih]
    have hfs := processChannel_fs_no_save p lt sid df patient a st hms
    have hch : (processChannel p lt sid df patient a st).channels
        = st.channels
          ++ [(a, resize_image (st.fs.read (cell df a patient)) target Interpolator.linear)] := by
      unfold processChannel
      simp [hrt, hms]
    rw [hch, hfs]
    simp

/-- The skip flag computed for a row with a label header. -/
theorem buildSubjectDict_skip_some (p : Params) (lt : String) (df : DataFrame)
    (patient : Nat) (fs : FS) (lh : Nat)
    (hlh : p.headers.labelHeader = some lh) :
    (buildSubjectDict p lt df patient fs).2.1
      = ((channelLoopState p lt df patient fs).skip_subject
          || !((channelLoopState p lt df patient fs).fs.isfile (cell df lh patient))) := by
  unfold buildSubjectDict
  rw [hlh]
  cases hr : resizeTarget p.data_preprocessing with
  | none => simp
  | some t =>
    by_cases hms : p.memory_save_mode = true
    · simp [hms]
    · simp only [Bool.not_eq_true] at hms
      simp [hms]

/-- The skip flag computed for a row without a label header. -/
theorem buildSubjectDict_skip_none (p : Params) (lt : String) (df : DataFrame)
    (patient : Nat) (fs : FS)
    (hlh : p.headers.labelHeader = none) :
    (buildSubjectDict p lt df patient fs).2.1
      = (channelLoopState p lt df patient fs).skip_subject := by
  unfold buildSubjectDict
  rw [hlh]

/-- Row projection (resize on, memory-saving off, label present): the built
subject carries the nearest-neighbour-resized label and the channel list from
the channel loop. -/
theorem buildSubjectDict_label_resized (p : Params) (lt : String) (df : DataFrame)
    (patient : Nat) (fs : FS) (lh : Nat) (target : List Nat)
    (hlh : p.headers.labelHeader = some lh)
    (hrt : resizeTarget p.data_preprocessing = some target)
    (hms : p.memory_save_mode = false) :
    (buildSubjectDict p lt df patient fs).1.label
      = some (resize_image ((channelLoopState p lt df patient fs).fs.read (cell df lh patient))
          target Interpolator.nearest)
    ∧ (buildSubjectDict p lt df patient fs).1.channels
      = (channelLoopState p lt df patient fs).channels := by
  unfold buildSubjectDict
  rw [hlh]
  simp [hrt, hms]

/-- Row projection (resize on, memory-saving on, label present): the row\'s
final filesystem is the label-cache write, whose extension is read from the
last channel header\'s cell (the leftover loop variable), applied to the
filesystem left by the channel loop. -/
theorem buildSubjectDict_fs_label_save (p : Params) (lt : String) (df : DataFrame)
    (patient : Nat) (fs : FS) (lh : Nat) (target : List Nat)
    (hlh : p.headers.labelHeader = some lh)
    (hrt : resizeTarget p.data_preprocessing = some target)
    (hms : p.memory_save_mode = true) :
    (buildSubjectDict p lt df patient fs).2.2
      = _save_resized_images
          (resize_image ((channelLoopState p lt df patient fs).fs.read (cell df lh patient))
            target Interpolator.nearest)
          p.output_dir (cell df p.headers.subjectIDHeader patient) "label" lt
          (get_filename_extension_sanitized
            (cell df (p.headers.channelHeaders.getLastD 0) patient))
          (channelLoopState p lt df patient fs).fs := by
  unfold buildSubjectDict
  rw [hlh]
  simp [hrt, hms]

/-- Left cancellation for string concatenation. -/
theorem string_append_left_cancel (a b c : String) (h : a ++ b = a ++ c) : b = c := by
  have h2 : (a ++ b).data = (a ++ c).data := congrArg String.data h
  rw [String.data_append, String.data_append] at h2
  exact String.ext (List.append_cancel_left h2)

/-- Two cache paths that differ only in the extension are equal only if the
extensions are. -/
theorem resized_save_path_ext_inj (o s c l e1 e2 : String)
    (h : resized_save_path o s c l e1 = resized_save_path o s c l e2) : e1 = e2 := by
  unfold resized_save_path at h
  exact string_append_left_cancel _ _ _ h

/-- Accumulator normalisation for the augmentation fold. -/
theorem build_transformations_foldl_acc (l : List (String × String))
    (acc : List Transform) :
    l.foldl
        (fun a ap =>
          if lowercase ap.1 ∈ global_augs_dict_keys then a ++ [Transform.aug (lowercase ap.1) ap.2]
          else a) acc
      = acc ++ l.foldl
          (fun a ap =>
            if lowercase ap.1 ∈ global_augs_dict_keys then a ++ [Transform.aug (lowercase ap.1) ap.2]
            else a) [] := by
  induction l generalizing acc with
  | nil => simp
  | cons hd tl ih =>
    rw [List.foldl_cons, List.foldl_cons]
    by_cases hk : lowercase hd.1 ∈ global_augs_dict_keys
    · simp only [hk, ite_true, List.nil_append]
      rw [ih (acc ++ [Transform.aug (lowercase hd.1) hd.2]),
        ih [Transform.aug (lowercase hd.1) hd.2], List.append_assoc]
    · simp only [hk, ite_false]
      rw [ih acc]

/-- Membership in the collected augmentation transforms: exactly the
registry hits, lower-cased, each with its own parameter block. -/
theorem build_transformations_mem (augs : List (String × String)) (t : Transform) :
    t ∈ build_transformations_list true (some augs)
      ↔ ∃ ap ∈ augs, lowercase ap.1 ∈ global_augs_dict_keys
          ∧ t = Transform.aug (lowercase ap.1) ap.2 := by
  induction augs with
  | nil => simp [build_transformations_list]
  | cons hd tl ih =>
    unfold build_transformations_list at ih ⊢
    simp only [if_true] at ih ⊢
    rw [List.foldl_cons, build_transformations_foldl_acc]
    by_cases hk : lowercase hd.1 ∈ global_augs_dict_keys
    · simp only [hk, if_true, List.nil_append, List.mem_append, List.mem_singleton]
      constructor
      · rintro (rfl | ht)
        · exact ⟨hd, List.mem_cons_self hd tl, hk, rfl⟩
        · obtain ⟨ap, hap, hk2, rfl⟩ := ih.mp ht
          exact ⟨ap, List.mem_cons_of_mem hd hap, hk2, rfl⟩
      · rintro ⟨ap, hap, hk2, rfl⟩
        rcases List.mem_cons.mp hap with rfl | hap2
        · exact Or.inl rfl
        · exact Or.inr (ih.mpr ⟨ap, hap2, hk2, rfl⟩)
    · simp only [hk, if_false, List.nil_append]
      constructor
      · intro ht
        obtain ⟨ap, hap, hk2, rfl⟩ := ih.mp ht
        exact ⟨ap, List.mem_cons_of_mem hd hap, hk2, rfl⟩
      · rintro ⟨ap, hap, hk2, rfl⟩
        rcases List.mem_cons.mp hap with rfl | hap2
        · exact absurd hk2 hk
        · exact ih.mpr ⟨ap, hap2, hk2, rfl⟩

/-- Preprocessing-only chains contain no augmentation transform. -/
theorem get_transforms_no_aug (p : Params) (train zc : Bool) :
    ∀ t ∈ get_transforms_for_preprocessing p [] train zc, t.isAug = false := by
  intro t ht
  unfold get_transforms_for_preprocessing at ht
  simp only [List.append_nil, List.mem_append, List.mem_map] at ht
  rcases ht with ⟨kv, _, rfl⟩ | hz
  · rfl
  · by_cases h : zc = true
    · simp only [h, ite_true, List.mem_singleton] at hz
      subst hz
      rfl
    · simp only [Bool.not_eq_true] at h
      simp [h] at hz

/-- C2 counterexample: on the spec's own three-row scenario (the middle row's
channel file missing) the Error Log stays empty — row "B" is absent from the
Subject List, but its id is never recorded in the Error Log, refuting the
claim that every missing-file row's id appears there. -/
theorem c2_missing_file_not_in_error_log :
    (assemble (fun _ => true) baseParams ""
        [["a.nii", "A"], ["missing.nii", "B"], ["c.nii", "C"]]
        [("a.nii", imgA), ("c.nii", imgA)]).subjects_with_error = some []
    ∧ (assemble (fun _ => true) baseParams ""
        [["a.nii", "A"], ["missing.nii", "B"], ["c.nii", "C"]]
        [("a.nii", imgA), ("c.nii", imgA)]).subjects_list.map Subject.subject_id = ["A", "C"]
    ∧ ¬ ("B" ∈ ((assemble (fun _ => true) baseParams ""
        [["a.nii", "A"], ["missing.nii", "B"], ["c.nii", "C"]]
        [("a.nii", imgA), ("c.nii", imgA)]).subjects_with_error.getD [])) :=
  ⟨by decide, by decide, by decide⟩

/-- C2 amended: a row with a missing channel or label file is absent from the
Subject List and assembly continues (the row step returns normally, changing
at most the filesystem), but the subject id is NOT recorded in the Error Log —
missing-file rows are skipped silently; the Error Log receives only
sanity-check failures.  (Stated with memory-saving cache writes off so the
existence checks run against an unchanged filesystem.) -/
theorem c2_missing_file_rows_silently_skipped
    (sanity : Subject → Bool) (p : Params) (lt : String) (df : DataFrame)
    (patient : Nat) (st : AsmState)
    (hms : p.memory_save_mode = false)
    (hmiss : (∃ c ∈ p.headers.channelHeaders, st.fs.isfile (cell df c patient) = false)
      ∨ (∃ lh, p.headers.labelHeader = some lh
          ∧ st.fs.isfile (cell df lh patient) = false)) :
    (processRow sanity p lt df patient st).subjects_list = st.subjects_list
    ∧ (processRow sanity p lt df patient st).subjects_with_error
        = st.subjects_with_error := by
  have hchfs : (channelLoopState p lt df patient st.fs).fs = st.fs := by
    unfold channelLoopState
    exact foldl_processChannel_fs_no_save p lt
      (cell df p.headers.subjectIDHeader patient) df patient _ hms _
  have hskip : (buildSubjectDict p lt df patient st.fs).2.1 = true := by
    rcases hmiss with ⟨c, hc, hm⟩ | ⟨lh, hlabel, hm⟩
    · have hsk : (channelLoopState p lt df patient st.fs).skip_subject = true := by
        unfold channelLoopState
        exact foldl_processChannel_skip_missing p lt
          (cell df p.headers.subjectIDHeader patient) df patient _ hms _ ⟨c, hc, hm⟩
      cases hlabel : p.headers.labelHeader with
      | none =>
        rw [buildSubjectDict_skip_none p lt df patient st.fs hlabel]
        exact hsk
      | some lh =>
        rw [buildSubjectDict_skip_some p lt df patient st.fs lh hlabel, hsk]
        simp
    · rw [buildSubjectDict_skip_some p lt df patient st.fs lh hlabel, hchfs, hm]
      simp
  unfold processRow
  simp [hskip]

/-- C2 witness. -/
theorem c2_missing_file_rows_silently_skipped_witness :
    (baseParams.memory_save_mode = false
      ∧ ((∃ c ∈ baseParams.headers.channelHeaders,
            FS.isfile ([("a.nii", imgA)] : FS) (cell [["missing.nii", "B"]] c 0) = false)
        ∨ (∃ lh, baseParams.headers.labelHeader = some lh
            ∧ FS.isfile ([("a.nii", imgA)] : FS) (cell [["missing.nii", "B"]] lh 0) = false)))
    ∧ ((processRow (fun _ => true) baseParams "" [["missing.nii", "B"]] 0
          ⟨[], some [], [("a.nii", imgA)], []⟩).subjects_list = []
      ∧ (processRow (fun _ => true) baseParams "" [["missing.nii", "B"]] 0
          ⟨[], some [], [("a.nii", imgA)], []⟩).subjects_with_error = some []) :=
  ⟨⟨rfl, Or.inl ⟨0, by decide, by decide⟩⟩,
   c2_missing_file_rows_silently_skipped (fun _ => true) baseParams ""
     [["missing.nii", "B"]] 0 ⟨[], some [], [("a.nii", imgA)], []⟩ rfl
     (Or.inl ⟨0, by decide, by decide⟩)⟩

/-- C5: with the resize stage active, memory-saving off and a label header
present, the assembled subject's label is the nearest-neighbour resample of
the label read from disk — so every voxel value of the resized label already
occurs in the original label (no new classes) — while every channel entry is
resampled with the continuous (linear) interpolator. -/
theorem c5_label_nearest_channels_linear (p : Params) (lt : String)
    (df : DataFrame) (patient : Nat) (fs : FS) (lh : Nat) (target : List Nat)
    (hlh : p.headers.labelHeader = some lh)
    (hrt : resizeTarget p.data_preprocessing = some target)
    (hms : p.memory_save_mode = false) :
    (buildSubjectDict p lt df patient fs).1.label
      = some (resize_image (fs.read (cell df lh patient)) target Interpolator.nearest)
    ∧ (∀ v ∈ ((buildSubjectDict p lt df patient fs).1.label.getD ⟨[], [], []⟩).voxels,
        v ∈ (fs.read (cell df lh patient)).voxels)
    ∧ (buildSubjectDict p lt df patient fs).1.channels
      = p.headers.channelHeaders.map (fun c =>
          (c, resize_image (fs.read (cell df c patient)) target Interpolator.linear)) := by
  have hchfs : (channelLoopState p lt df patient fs).fs = fs := by
    unfold channelLoopState
    exact foldl_processChannel_fs_no_save p lt
      (cell df p.headers.subjectIDHeader patient) df patient _ hms _
  obtain ⟨hlab, hchan⟩ :=
    buildSubjectDict_label_resized p lt df patient fs lh target hlh hrt hms
  rw [hchfs] at hlab
  refine ⟨hlab, ?_, ?_⟩
  · intro v hv
    rw [hlab] at hv
    simp only [Option.getD_some] at hv
    have hvox : (resize_image (fs.read (cell df lh patient)) target
          Interpolator.nearest).voxels
        = resizeVoxels (fs.read (cell df lh patient)).voxels
            (target.foldl (· * ·) 1) := rfl
    rw [hvox] at hv
    exact resizeVoxels_mem _ _ v hv
  · rw [hchan]
    unfold channelLoopState
    rw [foldl_processChannel_channels_resized p lt
      (cell df p.headers.subjectIDHeader patient) df patient _ target hrt hms _]
    simp

/-- C5 witness. -/
theorem c5_label_nearest_channels_linear_witness :
    (resizeParams.headers.labelHeader = some 2
      ∧ resizeTarget resizeParams.data_preprocessing = some [3]
      ∧ resizeParams.memory_save_mode = false)
    ∧ (buildSubjectDict resizeParams "" [["img.nii", "sub1", "seg.mha"]] 0
        [("img.nii", imgA), ("seg.mha", imgLab)]).1.label
      = some (resize_image
          (FS.read [("img.nii", imgA), ("seg.mha", imgLab)]
            (cell [["img.nii", "sub1", "seg.mha"]] 2 0))
          [3] Interpolator.nearest) :=
  ⟨⟨by decide, by decide, by decide⟩,
   (c5_label_nearest_channels_linear resizeParams
     "" [["img.nii", "sub1", "seg.mha"]] 0
     [("img.nii", imgA), ("seg.mha", imgLab)] 2 [3]
     (by decide) (by decide) (by decide)).1⟩

/-- C7: the padding stage runs exactly when the sampler configuration enables
padding.  When disabled the subject is unchanged; when enabled, the pad size
is computed from the patch size and the model dimension, and every image of
the subject — channels and label alike — grows by exactly twice the pad
width on each zipped axis. -/
theorem c7_padding_iff_enabled (p : Params) (s : Subject) :
    (p.patch_sampler.enable_padding = false → paddingStage p s = s)
    ∧ (p.patch_sampler.enable_padding = true →
        (∀ (i c : Nat) (img : SImage), s.channels[i]? = some (c, img) →
          ∃ img2 : SImage, (paddingStage p s).channels[i]? = some (c, img2)
            ∧ img2.dims = List.zipWith (fun d q => d + 2 * q) img.dims
                (get_correct_padding_size p.patch_size p.model.dimension))
        ∧ (∀ limg : SImage, s.label = some limg →
            ∃ limg2 : SImage, (paddingStage p s).label = some limg2
              ∧ limg2.dims = List.zipWith (fun d q => d + 2 * q) limg.dims
                  (get_correct_padding_size p.patch_size p.model.dimension))) := by
  constructor
  · intro h
    unfold paddingStage
    simp [h]
  · intro h
    unfold paddingStage
    simp only [h, ite_true]
    constructor
    · intro i c img hi
      refine ⟨padImage (get_correct_padding_size p.patch_size p.model.dimension)
          p.patch_sampler.padding_mode img, ?_, rfl⟩
      unfold padSubject
      simp [List.getElem?_map, hi]
    · intro limg hl
      refine ⟨padImage (get_correct_padding_size p.patch_size p.model.dimension)
          p.patch_sampler.padding_mode limg, ?_, rfl⟩
      unfold padSubject
      simp [hl]

/-- C7 witness. -/
theorem c7_padding_iff_enabled_witness :
    ({ baseParams with patch_sampler := ⟨"label", true, "replicate", false⟩ }
        : Params).patch_sampler.enable_padding = true
    ∧ ∃ img2, (paddingStage
          { baseParams with patch_sampler := ⟨"label", true, "replicate", false⟩ }
          ⟨"sub1", [(0, imgA)], none, some imgLab, "seg.mha", []⟩).channels[0]?
        = some (0, img2)
      ∧ img2.dims = List.zipWith (fun d q => d + 2 * q) imgA.dims
          (get_correct_padding_size baseParams.patch_size baseParams.model.dimension) :=
  ⟨rfl,
   ((c7_padding_iff_enabled
     { baseParams with patch_sampler := ⟨"label", true, "replicate", false⟩ }
     ⟨"sub1", [(0, imgA)], none, some imgLab, "seg.mha", []⟩).2 rfl).1
     0 0 imgA (by decide)⟩

/-- C8: augmentation transforms enter the chain only for `train = true` with
a present augmentation mapping; each is the registry hit for the lower-cased
name instantiated with its own parameter block, and the augmentations sit
after every preprocessing transform; the evaluation chain contains no
augmentation transform. -/
theorem c8_augmentations_training_only (p : Params) (zc : Bool) :
    (∀ t ∈ get_transforms_for_preprocessing p
        (build_transformations_list false p.data_augmentation) false zc,
      t.isAug = false)
    ∧ get_transforms_for_preprocessing p
        (build_transformations_list true p.data_augmentation) true zc
      = get_transforms_for_preprocessing p [] true zc
          ++ build_transformations_list true p.data_augmentation
    ∧ (∀ t ∈ get_transforms_for_preprocessing p [] true zc, t.isAug = false)
    ∧ (∀ t, t ∈ build_transformations_list true p.data_augmentation
        ↔ ∃ ap ∈ p.data_augmentation.getD [],
            lowercase ap.1 ∈ global_augs_dict_keys
              ∧ t = Transform.aug (lowercase ap.1) ap.2) := by
  refine ⟨?_, ?_, get_transforms_no_aug p true zc, ?_⟩
  · have hb : build_transformations_list false p.data_augmentation = [] := rfl
    rw [hb]
    exact get_transforms_no_aug p false zc
  · unfold get_transforms_for_preprocessing
    simp [List.append_assoc]
  · intro t
    cases ha : p.data_augmentation with
    | none =>
      have hb : build_transformations_list true none = [] := rfl
      rw [hb]
      simp
    | some augs =>
      simpa using build_transformations_mem augs t

/-- C8 witness. -/
theorem c8_augmentations_training_only_witness :
    Transform.aug "flip" "prm" ∈ build_transformations_list true
      ({ baseParams with data_augmentation := some [("Flip", "prm")] }
        : Params).data_augmentation :=
  ((c8_augmentations_training_only
      { baseParams with data_augmentation := some [("Flip", "prm")] } false).2.2.2
    (Transform.aug "flip" "prm")).mpr
    ⟨("Flip", "prm"), by decide, by decide, by decide⟩

/-- C10: in memory-saving mode with resize active and a label present, the
label's cache file is written at the path whose extension is taken from the
LAST CHANNEL's file path (the leftover loop variable), not from the label's
own path: whenever the two extensions differ (and neither cache path already
exists), the channel-extension label path exists after the row and the
label-extension label path does not. -/
theorem c10_label_cache_uses_channel_extension (p : Params) (lt : String)
    (df : DataFrame) (patient : Nat) (fs : FS) (lh : Nat) (target : List Nat)
    (hlh : p.headers.labelHeader = some lh)
    (hrt : resizeTarget p.data_preprocessing = some target)
    (hms : p.memory_save_mode = true)
    (hne : get_filename_extension_sanitized (cell df lh patient)
        ≠ get_filename_extension_sanitized
            (cell df (p.headers.channelHeaders.getLastD 0) patient))
    (hC : (channelLoopState p lt df patient fs).fs.isfile
        (resized_save_path p.output_dir (cell df p.headers.subjectIDHeader patient)
          "label" lt
          (get_filename_extension_sanitized
            (cell df (p.headers.channelHeaders.getLastD 0) patient))) = false)
    (hL : (channelLoopState p lt df patient fs).fs.isfile
        (resized_save_path p.output_dir (cell df p.headers.subjectIDHeader patient)
          "label" lt
          (get_filename_extension_sanitized (cell df lh patient))) = false) :
    FS.isfile (buildSubjectDict p lt df patient fs).2.2
        (resized_save_path p.output_dir (cell df p.headers.subjectIDHeader patient)
          "label" lt
          (get_filename_extension_sanitized
            (cell df (p.headers.channelHeaders.getLastD 0) patient))) = true
    ∧ FS.isfile (buildSubjectDict p lt df patient fs).2.2
        (resized_save_path p.output_dir (cell df p.headers.subjectIDHeader patient)
          "label" lt
          (get_filename_extension_sanitized (cell df lh patient))) = false := by
  rw [buildSubjectDict_fs_label_save p lt df patient fs lh target hlh hrt hms]
  unfold _save_resized_images
  simp only [hC, Bool.false_eq_true, if_false]
  have hneq : resized_save_path p.output_dir
        (cell df p.headers.subjectIDHeader patient) "label" lt
        (get_filename_extension_sanitized (cell df lh patient))
      ≠ resized_save_path p.output_dir
        (cell df p.headers.subjectIDHeader patient) "label" lt
        (get_filename_extension_sanitized
          (cell df (p.headers.channelHeaders.getLastD 0) patient)) := by
    intro hcontra
    exact hne (resized_save_path_ext_inj _ _ _ _ _ _ hcontra)
  constructor
  · unfold FS.isfile FS.write
    simp [List.lookup]
  · have hbeq : ((resized_save_path p.output_dir
          (cell df p.headers.subjectIDHeader patient) "label" lt
          (get_filename_extension_sanitized (cell df lh patient)))
        == (resized_save_path p.output_dir
          (cell df p.headers.subjectIDHeader patient) "label" lt
          (get_filename_extension_sanitized
            (cell df (p.headers.channelHeaders.getLastD 0) patient)))) = false :=
      beq_eq_false_iff_ne.mpr hneq
    unfold FS.isfile at hL
    unfold FS.isfile FS.write
    have hLnone : List.lookup
        (resized_save_path p.output_dir (cell df p.headers.subjectIDHeader patient)
          "label" lt (get_filename_extension_sanitized (cell df lh patient)))
        (channelLoopState p lt df patient fs).fs = none :=
      Option.not_isSome_iff_eq_none.mp (by simp [hL])
    simp only [List.getLastD_eq_getLast?] at hbeq
    simp [List.lookup, hbeq, hLnone]

/-- C10 witness. -/
theorem c10_label_cache_uses_channel_extension_witness :
    (get_filename_extension_sanitized (cell [["img.nii", "sub1", "seg.mha"]] 2 0)
        ≠ get_filename_extension_sanitized (cell [["img.nii", "sub1", "seg.mha"]] 0 0))
    ∧ FS.isfile
        (buildSubjectDict memorySaveParams "" [["img.nii", "sub1", "seg.mha"]] 0
          [("img.nii", imgA), ("seg.mha", imgLab)]).2.2
        (resized_save_path "out" "sub1" "label" ""
          (get_filename_extension_sanitized "img.nii")) = true
    ∧ FS.isfile
        (buildSubjectDict memorySaveParams "" [["img.nii", "sub1", "seg.mha"]] 0
          [("img.nii", imgA), ("seg.mha", imgLab)]).2.2
        (resized_save_path "out" "sub1" "label" ""
          (get_filename_extension_sanitized "seg.mha")) = false := by
  have h := c10_label_cache_uses_channel_extension memorySaveParams
    "" [["img.nii", "sub1", "seg.mha"]] 0
    [("img.nii", imgA), ("seg.mha", imgLab)] 2 [2]
    (by decide) (by decide) (by decide) (by decide) (by decide) (by decide)
  exact ⟨by decide, h.1, h.2⟩
